import Mathlib

/-!
Shallow embedding of the kerala-care-hub relief-coordination application.

The embedding translates, from the repository source:
  * the database rows of the five tables declared in the SQL migration
    (`profiles`, `camps`, `camp_needs`, `volunteers`, `ngo_assistance`),
  * the client operation `handleProvideAssistance` of
    `src/components/dashboards/NGODashboard.tsx` (insert a ledger entry,
    then write the recomputed `quantity_fulfilled` / `status` of the need,
    both values computed from the client's snapshot of the need),
  * the client operation `handleVolunteer` and the seat-availability
    helpers of `UserDashboard`,
  * the `urgencyColor` helpers of `NGODashboard` and `CampDashboard`,
  * the row-level-security checks of the migration that gate the inserts
    and updates the claims are about (the `ngo` role check on
    `ngo_assistance` inserts, the owner check plus the `delivery_status`
    CHECK constraint on `ngo_assistance` updates, and the
    `UNIQUE(user_id, camp_id, volunteer_type)` constraint on `volunteers`).

Quantities are modelled as `Int` (the SQL columns are INTEGER with no
positivity CHECK, and the client passes `parseInt` results through
unchecked). Ids are `String` (UUIDs). Status and urgency fields are the
`String` literals the source uses.
-/

namespace KeralaCareHub

/-- A row of `profiles`: id, full_name, phone, role (`user`/`camp`/`ngo`). -/
structure Profile where
  id : String
  full_name : String
  phone : String
  role : String
  deriving Repr, DecidableEq

/-- A row of `camps` (the fields the dashboards read). -/
structure Camp where
  id : String
  name : String
  location : String
  total_capacity : Int
  occupied_seats : Int
  contact_phone : String
  status : String
  deriving Repr, DecidableEq

/-- A row of `camp_needs`. -/
structure Need where
  id : String
  camp_id : String
  item_name : String
  quantity_needed : Int
  quantity_fulfilled : Int
  urgency : String
  status : String
  deriving Repr, DecidableEq

/-- A row of `ngo_assistance` (the assistance ledger). -/
structure AssistanceEntry where
  ngo_id : String
  camp_id : String
  need_id : String
  items_provided : String
  quantity : Int
  delivery_status : String
  notes : String
  deriving Repr, DecidableEq

/-- A row of `volunteers`. -/
structure VolunteerRow where
  user_id : String
  camp_id : String
  volunteer_type : String
  status : String
  deriving Repr, DecidableEq

/-- The database state: the five relations of the migration. -/
structure DBState where
  profiles : List Profile
  camps : List Camp
  camp_needs : List Need
  ngo_assistance : List AssistanceEntry
  volunteers : List VolunteerRow
  deriving Repr, DecidableEq

/-- The INSERT policy on `ngo_assistance` from the migration:
`auth.uid() = ngo_id AND EXISTS (profile with id = auth.uid() and role = 'ngo')`. -/
def ngoInsertAllowed (s : DBState) (uid : String) (entry : AssistanceEntry) : Bool :=
  uid == entry.ngo_id && s.profiles.any (fun p => p.id == uid && p.role == "ngo")

/-- The status the NGO dashboard writes back:
`newFulfilled >= selectedNeed.quantity_needed ? "fulfilled" : "partial"`
(NGODashboard.tsx line 103). -/
def newStatusOf (newFulfilled needed : Int) : String :=
  if newFulfilled ≥ needed then "fulfilled" else "partial"

/-- The `camp_needs` UPDATE issued by the dashboard: set `quantity_fulfilled`
and `status` on the row whose id matches (`.eq("id", selectedNeed.id)`). -/
def updateNeedRow (needs : List Need) (needId : String) (newFulfilled : Int)
    (newStatus : String) : List Need :=
  needs.map (fun n =>
    if n.id == needId then
      { n with quantity_fulfilled := newFulfilled, status := newStatus }
    else n)

/-- Look up a need row by id. -/
def findNeed (s : DBState) (needId : String) : Option Need :=
  s.camp_needs.find? (fun n => n.id == needId)

/-- Outcome of a dashboard mutation: `ok` is whether the client reports
success (the success toast) and `state` is the resulting database state. -/
structure PledgeResult where
  ok : Bool
  state : DBState
  deriving Repr, DecidableEq

/-- `handleProvideAssistance` of NGODashboard.tsx (lines 79-120), with the
second database call's outcome made explicit. The client:
1. inserts a ledger entry (ngo_id := current user, fields copied from the
   snapshot `selectedNeed`, `delivery_status` defaulting to "pledged");
   an insert error (the role policy) aborts with the error toast;
2. computes `newFulfilled := selectedNeed.quantity_fulfilled + quantity`
   and `newStatus` from the SNAPSHOT, and issues the `camp_needs` update
   WITHOUT checking its result: `updateOk := false` models that second
   call failing, after which the client still reports success and the
   ledger entry from step 1 persists (the two calls are separate requests,
   not a transaction). -/
def handleProvideAssistanceSteps (s : DBState) (uid : String) (selectedNeed : Need)
    (quantity : Int) (notes : String) (updateOk : Bool) : PledgeResult :=
  let entry : AssistanceEntry :=
    { ngo_id := uid
      camp_id := selectedNeed.camp_id
      need_id := selectedNeed.id
      items_provided := selectedNeed.item_name
      quantity := quantity
      delivery_status := "pledged"
      notes := notes }
  if ngoInsertAllowed s uid entry then
    let s1 := { s with ngo_assistance := s.ngo_assistance ++ [entry] }
    if updateOk then
      let newFulfilled := selectedNeed.quantity_fulfilled + quantity
      let newStatus := newStatusOf newFulfilled selectedNeed.quantity_needed
      { ok := true
        state := { s1 with
          camp_needs := updateNeedRow s1.camp_needs selectedNeed.id newFulfilled newStatus } }
    else
      { ok := true, state := s1 }
  else
    { ok := false, state := s }

/-- The normal run of `handleProvideAssistance`: both database calls go through. -/
def handleProvideAssistance (s : DBState) (uid : String) (selectedNeed : Need)
    (quantity : Int) (notes : String) : PledgeResult :=
  handleProvideAssistanceSteps s uid selectedNeed quantity notes true

/-- The `max` attribute the dashboard puts on the quantity input:
`selectedNeed.quantity_needed - selectedNeed.quantity_fulfilled`. -/
def quantityInputMax (n : Need) : Int :=
  n.quantity_needed - n.quantity_fulfilled

/-- A fixture need that is already fully fulfilled: needed = 10, fulfilled = 10. -/
def needFull : Need :=
  { id := "n1", camp_id := "c1", item_name := "rice"
    quantity_needed := 10, quantity_fulfilled := 10
    urgency := "high", status := "fulfilled" }

/-- A fixture database state: one NGO profile `u1` and the need `needFull`. -/
def stateFull : DBState :=
  { profiles := [{ id := "u1", full_name := "N", phone := "", role := "ngo" }]
    camps := []
    camp_needs := [needFull]
    ngo_assistance := []
    volunteers := [] }

/-- C1: against Need{needed = 10, fulfilled = 10}, an NGO pledge of 1 is NOT
rejected: `handleProvideAssistance` reports success, appends a ledger entry,
and overwrites the need to fulfilled = 11 — there is no OverCommitError and
no commit-time remaining-need check anywhere in the operation (the only
guard in the source is the advisory `max` attribute on the form input). -/
theorem pledge_overcommit_accepted :
    (handleProvideAssistance stateFull "u1" needFull 1 "").ok = true ∧
    findNeed (handleProvideAssistance stateFull "u1" needFull 1 "").state "n1" =
      some { needFull with quantity_fulfilled := 11, status := "fulfilled" } ∧
    (handleProvideAssistance stateFull "u1" needFull 1 "").state.ngo_assistance.length = 1 ∧
    quantityInputMax needFull = 0 := by
  refine ⟨rfl, ?_, rfl, rfl⟩
  rfl

/-- Modelled from the spec: the pure status function of §3 —
`fulfilled` iff quantity_fulfilled ≥ quantity_needed, else `partial` iff
quantity_fulfilled > 0, else `pending`. Declared only to compare the
dashboard's written status against it. -/
def specStatus (fulfilled needed : Int) : String :=
  if fulfilled ≥ needed then "fulfilled"
  else if 0 < fulfilled then "partial"
  else "pending"

/-- A fixture need with nothing fulfilled yet: needed = 10, fulfilled = 0. -/
def needPending : Need :=
  { id := "n1", camp_id := "c1", item_name := "rice"
    quantity_needed := 10, quantity_fulfilled := 0
    urgency := "high", status := "pending" }

/-- A fixture database state: one NGO profile `u1`, a second NGO profile
`u2`, and the need `needPending`. -/
def statePending : DBState :=
  { profiles := [{ id := "u1", full_name := "N", phone := "", role := "ngo" },
                 { id := "u2", full_name := "M", phone := "", role := "ngo" }]
    camps := []
    camp_needs := [needPending]
    ngo_assistance := []
    volunteers := [] }

/-- C2: the pledge is NOT atomic. The ledger insert and the need update are
two separate requests and the update's result is never checked; when the
second call fails (`updateOk := false`) after the first succeeded, the
client still reports success, the ledger entry persists, and the need is
untouched — a ledger entry exists without the corresponding Need update. -/
theorem pledge_not_atomic :
    (handleProvideAssistanceSteps statePending "u1" needPending 4 "" false).ok = true ∧
    (handleProvideAssistanceSteps statePending "u1" needPending 4 "" false).state.ngo_assistance =
      [{ ngo_id := "u1", camp_id := "c1", need_id := "n1", items_provided := "rice"
         quantity := 4, delivery_status := "pledged", notes := "" }] ∧
    (handleProvideAssistanceSteps statePending "u1" needPending 4 "" false).state.camp_needs =
      [needPending] := by
  exact ⟨rfl, rfl, rfl⟩

/-- C3 counterexample: a successful pledge of quantity 0 against
Need{needed = 10, fulfilled = 0} reports success and writes status
"partial", while the spec's pure status function of the stored values
(fulfilled = 0, needed = 10) is "pending" — so after this successful
pledge the status does not equal the pure function. -/
theorem pledge_status_zero_quantity_mismatch :
    (handleProvideAssistance statePending "u1" needPending 0 "").ok = true ∧
    findNeed (handleProvideAssistance statePending "u1" needPending 0 "").state "n1" =
      some { needPending with quantity_fulfilled := 0, status := "partial" } ∧
    specStatus 0 10 = "pending" ∧
    ("partial" : String) ≠ "pending" := by
  refine ⟨rfl, by rfl, rfl, by decide⟩

/-- `find?` over the dashboard's need update: the first row matching the id
is overwritten with the new fulfilled quantity and status. -/
theorem find?_updateNeedRow {l : List Need} {needId : String} {n0 : Need}
    (h : l.find? (fun n => n.id == needId) = some n0) (nf : Int) (ns : String) :
    (updateNeedRow l needId nf ns).find? (fun n => n.id == needId) =
      some { n0 with quantity_fulfilled := nf, status := ns } := by
  induction l with
  | nil => simp [List.find?] at h
  | cons a l ih =>
    have hcons : updateNeedRow (a :: l) needId nf ns =
        (if a.id == needId then { a with quantity_fulfilled := nf, status := ns } else a)
          :: updateNeedRow l needId nf ns := rfl
    rw [hcons]
    cases ha : a.id == needId with
    | true =>
      rw [List.find?_cons_of_pos (p := fun n => n.id == needId) l ha] at h
      cases h
      exact List.find?_cons_of_pos _ ha
    | false =>
      have ha' : ¬ ((a.id == needId) = true) := by simp [ha]
      rw [List.find?_cons_of_neg (p := fun n => n.id == needId) l ha'] at h
      exact (List.find?_cons_of_neg (p := fun (n : Need) => n.id == needId) _ ha').trans (ih h)

/-- For a positive new fulfilled quantity, the status the dashboard writes
agrees with the spec's pure status function. -/
theorem newStatusOf_eq_specStatus {x d : Int} (hx : 0 < x) :
    newStatusOf x d = specStatus x d := by
  unfold newStatusOf specStatus
  by_cases hxd : x ≥ d
  · rw [if_pos hxd, if_pos hxd]
  · rw [if_neg hxd, if_neg hxd, if_pos hx]

/-- C3 amended: after every successful pledge of a POSITIVE quantity by an
NGO actor, computed from a snapshot with nonnegative fulfilled quantity and
the same quantity_needed as the stored row, the stored need's status equals
the spec's pure function of its stored (quantity_fulfilled,
quantity_needed). (The original claim's range "for all values of the
pledged quantity" fails at quantity 0, see the counterexample.) -/
theorem pledge_status_matches_specStatus (s : DBState) (uid : String) (n n0 : Need)
    (q : Int) (notes : String)
    (hq : 0 < q) (hf : 0 ≤ n.quantity_fulfilled)
    (hrole : s.profiles.any (fun p => p.id == uid && p.role == "ngo") = true)
    (h0 : findNeed s n.id = some n0)
    (hnn : n0.quantity_needed = n.quantity_needed) :
    (handleProvideAssistance s uid n q notes).ok = true ∧
    findNeed (handleProvideAssistance s uid n q notes).state n.id =
      some { n0 with quantity_fulfilled := n.quantity_fulfilled + q,
                     status := specStatus (n.quantity_fulfilled + q) n0.quantity_needed } := by
  have hpos : 0 < n.quantity_fulfilled + q := by omega
  have hins : ngoInsertAllowed s uid
      { ngo_id := uid, camp_id := n.camp_id, need_id := n.id,
        items_provided := n.item_name, quantity := q,
        delivery_status := "pledged", notes := notes } = true := by
    simp [ngoInsertAllowed, hrole]
  constructor
  · simp [handleProvideAssistance, handleProvideAssistanceSteps, hins]
  · unfold handleProvideAssistance handleProvideAssistanceSteps
    simp only [hins, if_true]
    unfold findNeed at h0 ⊢
    dsimp only
    rw [find?_updateNeedRow h0, hnn, newStatusOf_eq_specStatus hpos]

/-- C3 witness: the amended theorem applied to the fixture — an NGO pledge
of 6 against Need{needed = 10, fulfilled = 0} stores fulfilled = 6 with
status equal to the spec's pure function (which is "partial"). -/
theorem pledge_status_matches_specStatus_witness :
    (handleProvideAssistance statePending "u1" needPending 6 "").ok = true ∧
    findNeed (handleProvideAssistance statePending "u1" needPending 6 "").state "n1" =
      some { needPending with quantity_fulfilled := 6,
                              status := specStatus 6 10 } := by
  have h := pledge_status_matches_specStatus statePending "u1" needPending needPending
    6 "" (by decide) (by decide) (by decide) (by rfl) rfl
  exact h

/-- The lost-update interleaving of two concurrent pledges: both clients
read the same snapshot of the need (both dashboards fetched before either
committed), then each runs `handleProvideAssistance`; the second write is
computed from the stale snapshot. -/
def twoConcurrentPledges (s : DBState) (uidA uidB : String) (snapshot : Need)
    (qA qB : Int) : PledgeResult × PledgeResult :=
  let rA := handleProvideAssistance s uidA snapshot qA ""
  let rB := handleProvideAssistance rA.state uidB snapshot qB ""
  (rA, rB)

/-- C4: two concurrent pledges of 6 each against Need{needed = 10,
fulfilled = 0} BOTH report success (neither receives any error), the stored
need ends at fulfilled = 6 (the second write clobbers the first), and the
ledger holds two entries whose committed quantities sum to 12 > 10 — the
remaining need is exceeded and no OverCommitError exists in the code. -/
theorem concurrent_pledges_both_succeed :
    (twoConcurrentPledges statePending "u1" "u2" needPending 6 6).1.ok = true ∧
    (twoConcurrentPledges statePending "u1" "u2" needPending 6 6).2.ok = true ∧
    findNeed (twoConcurrentPledges statePending "u1" "u2" needPending 6 6).2.state "n1" =
      some { needPending with quantity_fulfilled := 6, status := "partial" } ∧
    ((twoConcurrentPledges statePending "u1" "u2" needPending 6 6).2.state.ngo_assistance.map
      (fun e => e.quantity)) = [6, 6] := by
  exact ⟨rfl, rfl, by rfl, rfl⟩

/-- `availableSeats` from UserDashboard (line 80):
`camp.total_capacity - camp.occupied_seats`. -/
def availableSeats (camp : Camp) : Int :=
  camp.total_capacity - camp.occupied_seats

/-- The Register-as-Volunteer button's `disabled` attribute
(UserDashboard line 154): `availableSeats(camp) === 0`. -/
def registerDisabled (camp : Camp) : Bool :=
  availableSeats camp == 0

/-- The Available/Full badge of UserDashboard (lines 126-132):
"Available" iff `availableSeats(camp) > 0`, otherwise "Full". -/
def campBadge (camp : Camp) : String :=
  if availableSeats camp > 0 then "Available" else "Full"

/-- The `UNIQUE(user_id, camp_id, volunteer_type)` conflict check of the
`volunteers` table: does some existing row carry the same triple? -/
def volunteerConflict (vs : List VolunteerRow) (uid campId vtype : String) : Bool :=
  vs.any (fun v => v.user_id == uid && v.camp_id == campId && v.volunteer_type == vtype)

/-- Insert into `volunteers` under the unique constraint: on conflict the
insert errors and the table is unchanged (no merge), otherwise the row is
appended. -/
def insertVolunteerRow (s : DBState) (row : VolunteerRow) : Bool × DBState :=
  if volunteerConflict s.volunteers row.user_id row.camp_id row.volunteer_type then
    (false, s)
  else
    (true, { s with volunteers := s.volunteers ++ [row] })

/-- `handleVolunteer` of UserDashboard (lines 51-72): insert a volunteers
row for the current user with volunteer_type "camp_volunteer" and status
"active"; a duplicate-key error surfaces as the already-registered toast.
The operation touches no other table. -/
def handleVolunteer (s : DBState) (uid campId : String) : Bool × DBState :=
  insertVolunteerRow s
    { user_id := uid, camp_id := campId, volunteer_type := "camp_volunteer", status := "active" }

/-- A fixture camp at exactly full occupancy: 50 of 50 seats taken. -/
def campFull : Camp :=
  { id := "c1", name := "A", location := "L", total_capacity := 50
    occupied_seats := 50, contact_phone := "", status := "active" }

/-- A fixture state: the full camp `campFull` and no volunteer rows. -/
def stateFullCamp : DBState :=
  { profiles := []
    camps := [campFull]
    camp_needs := []
    ngo_assistance := []
    volunteers := [] }

/-- C5: a volunteer-seat request against a full camp is NOT rejected.
`handleVolunteer` contains no capacity check at all: against
Camp{total_capacity = 50, occupied = 50}, a user with no prior
registration is accepted (success reported, volunteers row appended), and
no conditional increment of occupied_seats exists anywhere (the camps row
is never written). The only guard in the source is the `disabled`
attribute on the button, computed from the client's snapshot, which does
not gate the operation itself. -/
theorem full_camp_registration_accepted :
    (handleVolunteer stateFullCamp "u2" "c1").1 = true ∧
    (handleVolunteer stateFullCamp "u2" "c1").2.volunteers =
      [{ user_id := "u2", camp_id := "c1", volunteer_type := "camp_volunteer"
         status := "active" }] ∧
    (handleVolunteer stateFullCamp "u2" "c1").2.camps = [campFull] := by
  exact ⟨rfl, rfl, rfl⟩

/-- The CHECK constraint on `ngo_assistance.delivery_status` from the
migration: the value must be one of pledged / in_transit / delivered. -/
def validDeliveryStatus (st : String) : Bool :=
  st == "pledged" || st == "in_transit" || st == "delivered"

/-- Whether the database accepts an UPDATE of assistance `entry` to
`newRow` issued by `uid`: the UPDATE policy ("NGOs can update own
assistance") only requires `auth.uid() = ngo_id`, and the only constraint
on the new row is the `delivery_status` CHECK — nothing compares the new
status with the old one and no other column is restricted. -/
def assistanceUpdateAllowed (uid : String) (entry newRow : AssistanceEntry) : Bool :=
  uid == entry.ngo_id && validDeliveryStatus newRow.delivery_status

/-- Modelled from the spec: the forward-only delivery transition relation
of `advanceDeliveryStatus` (pledged→in_transit→delivered), a function that
has no implementation anywhere in the repository. -/
def forwardTransition (cur next : String) : Bool :=
  (cur == "pledged" && next == "in_transit") || (cur == "in_transit" && next == "delivered")

/-- C6: the owning NGO's update of an entry from delivered back to pledged
— which even changes the quantity, an "immutable" field — is accepted by
every check present in the code (ownership policy plus value CHECK),
although it is not a forward transition; no InvalidTransitionError exists. -/
theorem backward_transition_accepted :
    assistanceUpdateAllowed "u1"
      { ngo_id := "u1", camp_id := "c1", need_id := "n1", items_provided := "rice"
        quantity := 4, delivery_status := "delivered", notes := "" }
      { ngo_id := "u1", camp_id := "c1", need_id := "n1", items_provided := "rice"
        quantity := 9, delivery_status := "pledged", notes := "" } = true ∧
    forwardTransition "delivered" "pledged" = false := by
  exact ⟨rfl, rfl⟩

/-- C7: a registration whose (user_id, camp_id, volunteer_type) triple is
already present is rejected with an error and the state is unchanged (no
merge, no duplicate row); a registration with a triple not present
succeeds and appends exactly that one row. -/
theorem duplicate_volunteer_rejected (s : DBState) (row : VolunteerRow) :
    ((∃ v ∈ s.volunteers, v.user_id = row.user_id ∧ v.camp_id = row.camp_id ∧
        v.volunteer_type = row.volunteer_type) →
      insertVolunteerRow s row = (false, s)) ∧
    ((¬ ∃ v ∈ s.volunteers, v.user_id = row.user_id ∧ v.camp_id = row.camp_id ∧
        v.volunteer_type = row.volunteer_type) →
      insertVolunteerRow s row = (true, { s with volunteers := s.volunteers ++ [row] })) := by
  have hiff : volunteerConflict s.volunteers row.user_id row.camp_id row.volunteer_type = true ↔
      ∃ v ∈ s.volunteers, v.user_id = row.user_id ∧ v.camp_id = row.camp_id ∧
        v.volunteer_type = row.volunteer_type := by
    simp [volunteerConflict, List.any_eq_true, Bool.and_eq_true, beq_iff_eq, and_assoc]
  constructor
  · intro hex
    rw [insertVolunteerRow, if_pos (hiff.mpr hex)]
  · intro hex
    rw [insertVolunteerRow, if_neg]
    intro hc
    exact hex (hiff.mp hc)

/-- A fixture state holding one volunteer registration
("u1", "c1", "camp_volunteer"). -/
def stateVol : DBState :=
  { profiles := []
    camps := []
    camp_needs := []
    ngo_assistance := []
    volunteers := [{ user_id := "u1", camp_id := "c1", volunteer_type := "camp_volunteer"
                     status := "active" }] }

/-- C7 witness: re-registering ("u1", "c1", "camp_volunteer") is rejected
with the state unchanged, while ("u1", "c2", "camp_volunteer") succeeds. -/
theorem duplicate_volunteer_rejected_witness :
    insertVolunteerRow stateVol
      { user_id := "u1", camp_id := "c1", volunteer_type := "camp_volunteer"
        status := "active" } = (false, stateVol) ∧
    insertVolunteerRow stateVol
      { user_id := "u1", camp_id := "c2", volunteer_type := "camp_volunteer"
        status := "active" } =
      (true, { stateVol with volunteers := stateVol.volunteers ++
        [{ user_id := "u1", camp_id := "c2", volunteer_type := "camp_volunteer"
           status := "active" }] }) := by
  refine ⟨(duplicate_volunteer_rejected stateVol _).1 ?_,
          (duplicate_volunteer_rejected stateVol _).2 ?_⟩
  · exact ⟨{ user_id := "u1", camp_id := "c1", volunteer_type := "camp_volunteer"
             status := "active" }, by simp [stateVol], rfl, rfl, rfl⟩
  · decide

/-- C8 counterexample: an NGO pledge of quantity 0 (≤ 0) is NOT rejected:
the operation reports success, a ledger entry with quantity 0 is created,
and the stored need is modified (its status is overwritten to "partial")
— no ValidationError exists for non-positive quantities. -/
theorem zero_quantity_pledge_accepted :
    (handleProvideAssistance statePending "u1" needPending 0 "").ok = true ∧
    ((handleProvideAssistance statePending "u1" needPending 0 "").state.ngo_assistance.map
      (fun e => e.quantity)) = [0] ∧
    findNeed (handleProvideAssistance statePending "u1" needPending 0 "").state "n1" ≠
      some needPending := by
  refine ⟨rfl, rfl, ?_⟩
  intro h
  rw [show findNeed (handleProvideAssistance statePending "u1" needPending 0 "").state "n1" =
      some { needPending with quantity_fulfilled := 0, status := "partial" } from rfl] at h
  simp [needPending] at h

/-- C8 amended: the pledge does fail, with no ledger entry and no change to
any need, whenever the acting user has no profile of role "ngo" (the
INSERT policy on ngo_assistance); a non-positive quantity, however, is not
validated anywhere (see the counterexample). -/
theorem pledge_rejected_for_non_ngo (s : DBState) (uid : String) (n : Need)
    (q : Int) (notes : String)
    (hrole : ∀ p ∈ s.profiles, p.id = uid → p.role ≠ "ngo") :
    (handleProvideAssistance s uid n q notes).ok = false ∧
    (handleProvideAssistance s uid n q notes).state = s := by
  have hany : (s.profiles.any fun p => p.id == uid && p.role == "ngo") = false := by
    rw [List.any_eq_false]
    intro p hp
    simp only [Bool.and_eq_true, beq_iff_eq, not_and]
    exact hrole p hp
  constructor <;>
    simp [handleProvideAssistance, handleProvideAssistanceSteps, ngoInsertAllowed, hany]

/-- C8 witness: the amended theorem at a state whose only profile for "u9"
has role "user": the pledge is rejected and the state is untouched. -/
theorem pledge_rejected_for_non_ngo_witness :
    (handleProvideAssistance
      { profiles := [{ id := "u9", full_name := "U", phone := "", role := "user" }]
        camps := [], camp_needs := [needPending], ngo_assistance := [], volunteers := [] }
      "u9" needPending 5 "").ok = false ∧
    (handleProvideAssistance
      { profiles := [{ id := "u9", full_name := "U", phone := "", role := "user" }]
        camps := [], camp_needs := [needPending], ngo_assistance := [], volunteers := [] }
      "u9" needPending 5 "").state =
      { profiles := [{ id := "u9", full_name := "U", phone := "", role := "user" }]
        camps := [], camp_needs := [needPending], ngo_assistance := [], volunteers := [] } :=
  pledge_rejected_for_non_ngo _ "u9" needPending 5 "" (by decide)

/-- `urgencyColor` of NGODashboard.tsx (lines 122-129). -/
def urgencyColorNGO (urgency : String) : String :=
  if urgency = "critical" then "destructive"
  else if urgency = "high" then "warning"
  else if urgency = "medium" then "default"
  else "secondary"

/-- `urgencyColor` of CampDashboard.tsx (lines 151-158). -/
def urgencyColorCamp (urgency : String) : String :=
  if urgency = "critical" then "destructive"
  else if urgency = "high" then "warning"
  else if urgency = "medium" then "default"
  else "secondary"

/-- C9: the two `urgencyColor` functions agree on every input string, map
critical/high/medium to destructive/warning/default, and send every other
string (any unrecognised urgency included) to "secondary". -/
theorem urgencyColor_functions_agree (u : String) :
    urgencyColorNGO u = urgencyColorCamp u ∧
    urgencyColorNGO "critical" = "destructive" ∧
    urgencyColorNGO "high" = "warning" ∧
    urgencyColorNGO "medium" = "default" ∧
    (u ≠ "critical" → u ≠ "high" → u ≠ "medium" → urgencyColorNGO u = "secondary") := by
  refine ⟨rfl, rfl, rfl, rfl, ?_⟩
  intro hc hh hm
  unfold urgencyColorNGO
  rw [if_neg hc, if_neg hh, if_neg hm]

/-- C9 witness: the theorem at the unrecognised urgency "low". -/
theorem urgencyColor_functions_agree_witness :
    urgencyColorNGO "low" = urgencyColorCamp "low" ∧
    urgencyColorNGO "low" = "secondary" :=
  ⟨(urgencyColor_functions_agree "low").1,
   (urgencyColor_functions_agree "low").2.2.2.2 (by decide) (by decide) (by decide)⟩

/-- A fixture over-occupied camp: 60 occupants against a capacity of 50. -/
def campOver : Camp :=
  { id := "c2", name := "B", location := "L", total_capacity := 50
    occupied_seats := 60, contact_phone := "", status := "active" }

/-- C10: the Register-as-Volunteer button is disabled exactly when
total_capacity − occupied_seats equals 0, so every camp with
occupied_seats > total_capacity is badged "Full" while its register button
stays enabled — the full-camp guard misses over-occupied camps. -/
theorem register_button_gap (c : Camp) :
    (registerDisabled c = true ↔ c.total_capacity - c.occupied_seats = 0) ∧
    (c.total_capacity < c.occupied_seats →
      campBadge c = "Full" ∧ registerDisabled c = false) := by
  constructor
  · simp [registerDisabled, availableSeats]
  · intro h
    constructor
    · unfold campBadge availableSeats
      rw [if_neg (by omega)]
    · simp only [registerDisabled, availableSeats, beq_eq_false_iff_ne, ne_eq]
      omega

/-- C10 witness: the theorem at the over-occupied fixture camp (60 of 50
seats): badge "Full", register button enabled. -/
theorem register_button_gap_witness :
    campBadge campOver = "Full" ∧ registerDisabled campOver = false :=
  (register_button_gap campOver).2 (by decide)

end KeralaCareHub
